import Mathlib

/-!
Shallow embedding of the lazy-panic library (src/src/lib.rs and
src/src/formatter.rs): panic-payload rendering, the segment policies of the
four shipped profiles (Empty, Simple, Debug, JustError), the default
`PanicFormat::print` orchestrator, and the hook-installation macro
`set_panic_message!`.
-/

namespace LazyPanic

/-- A source location attached to a panic (std `Location`): file name and line. -/
structure Location where
  file : String
  line : Nat
deriving DecidableEq, Repr

/-- Type tag for the dynamic type of a panic payload (`dyn Any`).  `str` is
`&str`, `string` is `String`; `other n` stands for any further concrete type
(one tag per type). -/
inductive TypeTag where
  | str
  | string
  | other : Nat → TypeTag
deriving DecidableEq, Repr

/-- A dynamically typed panic payload: its dynamic type tag and the Display
text of the carried value (`format!("\x7b\x7d", v)`). -/
structure Payload where
  ty : TypeTag
  display : String
deriving DecidableEq, Repr

/-- The panic-occurrence record handed to the hook (std `PanicInfo`): an
optional location plus the payload. -/
structure PanicInfoRec where
  location : Option Location
  payload : Payload
deriving DecidableEq, Repr

/-- Debug text of a type-erased `&dyn Any` payload reference: std's Debug
implementation for `dyn Any` prints the constant `Any` (as the doc of
`format_payload!` in src/src/lib.rs states: "For not specified types it is
`Any`"). -/
def anyDebugText : String := "Any"

/-- Embedding of the `format_payload!` macro (src/src/lib.rs lines 36-47): try
to downcast the payload to each candidate type in order; the first type tag
matching the payload's dynamic type yields the value's Display text; if none
matches, the payload is formatted as `\x7b:?\x7d`, i.e. the Debug text of
`&dyn Any`. -/
def format_payload (payload : Payload) : List TypeTag → String
  | [] => anyDebugText
  | t :: ts => if payload.ty = t then payload.display else format_payload payload ts

/-- State of one output sink: the bytes successfully written so far, plus a
flag modelling an unavailable sink (every write on a broken sink fails and
appends nothing). -/
structure SinkSt where
  out : String
  broken : Bool
deriving DecidableEq, Repr

/-- One write to the sink (`write_all` / `write!`): appends the bytes on
success, fails when the sink is unavailable. -/
def writeAll (w : SinkSt) (s : String) : Except Unit SinkSt :=
  if w.broken then Except.error () else Except.ok { w with out := w.out ++ s }

/-- A freshly acquired, available sink with nothing written yet. -/
def freshSink : SinkSt := { out := "", broken := false }

/-- Modelled from the spec: the `write_payload!` macro invoked by
src/src/formatter.rs is not present under src (only its callers are); per
spec §4.1 and the sibling `format_payload!` macro of src/src/lib.rs it tries
the candidate types in order and writes the first match's Display text, or
the generic Debug text of the payload when no candidate matches. -/
def write_payload (w : SinkSt) (payload : Payload) (types : List TypeTag) :
    Except Unit SinkSt :=
  writeAll w (format_payload payload types)

namespace Empty

/-- Backtrace policy of Empty (formatter.rs lines 61-66): writes nothing. -/
def backtrace_write_in (w : SinkSt) : Except Unit SinkSt := Except.ok w

/-- Panic-message-head policy of Empty (formatter.rs lines 40-45): writes
nothing. -/
def pre_write_in (w : SinkSt) : Except Unit SinkSt := Except.ok w

/-- PanicInfo policy of Empty (formatter.rs lines 47-52): writes nothing. -/
def panic_info_write_in (_ : PanicInfoRec) (w : SinkSt) : Except Unit SinkSt :=
  Except.ok w

/-- Suffix policy of Empty (formatter.rs lines 54-59): writes nothing. -/
def suffix_write_in (w : SinkSt) : Except Unit SinkSt := Except.ok w

end Empty

namespace Simple

/-- Panic-message-head policy of Simple (formatter.rs lines 81-86): writes the
literal bytes "Panic: " (note the trailing space in the source string). -/
def pre_write_in (w : SinkSt) : Except Unit SinkSt :=
  writeAll w "Panic: "

/-- PanicInfo policy of Simple (formatter.rs lines 88-97): writes
file:line followed by " - " (or "unknown:0 - " without a location), then the
payload rendered against the candidate types `&str`, `String`.  The `?` after
the location write propagates its error out of this policy. -/
def panic_info_write_in (info : PanicInfoRec) (w : SinkSt) : Except Unit SinkSt :=
  match (match info.location with
         | some location =>
             writeAll w (location.file ++ ":" ++ toString location.line ++ " - ")
         | none => writeAll w "unknown:0 - ") with
  | Except.ok w => write_payload w info.payload [TypeTag.str, TypeTag.string]
  | Except.error e => Except.error e

/-- Suffix policy of Simple (formatter.rs lines 99-104): one line break. -/
def suffix_write_in (w : SinkSt) : Except Unit SinkSt :=
  writeAll w "\n"

/-- Backtrace policy of Simple (formatter.rs lines 106-111): writes nothing. -/
def backtrace_write_in (w : SinkSt) : Except Unit SinkSt := Except.ok w

end Simple

namespace JustError

/-- PanicInfo policy of JustError (formatter.rs lines 250-255): only the
payload, rendered against the candidate types `&str`, `String`. -/
def panic_info_write_in (info : PanicInfoRec) (w : SinkSt) : Except Unit SinkSt :=
  write_payload w info.payload [TypeTag.str, TypeTag.string]

end JustError

/-- The four policy slots the orchestrator invokes (associated types of the
`PanicFormat` trait). -/
inductive Seg where
  | backtrace
  | pre
  | panicInfo
  | suffix
deriving DecidableEq, Repr

/-- Observable events of one `print` run: acquiring the sink via the profile's
writer constructor, and invoking one segment policy. -/
inductive Event where
  | acquire
  | invoke : Seg → Event
deriving DecidableEq, Repr

/-- A format profile: one policy per slot (the associated types
Backtrace/Prefix/PanicInfo/Suffix of the `PanicFormat` trait,
formatter.rs lines 120-127). -/
structure PanicFormat where
  backtrace : SinkSt → Except Unit SinkSt
  pre : SinkSt → Except Unit SinkSt
  panicInfo : PanicInfoRec → SinkSt → Except Unit SinkSt
  suffix : SinkSt → Except Unit SinkSt

/-- One `let _ = Policy::write_in(&mut writer)` line of the orchestrator:
runs the policy, keeps its sink effect on success, discards the error on
failure, and records the invocation. -/
def runSeg (s : Seg) (f : SinkSt → Except Unit SinkSt) :
    SinkSt × List Event → SinkSt × List Event
  | (w, tr) =>
    match f w with
    | Except.ok w2 => (w2, tr ++ [Event.invoke s])
    | Except.error _ => (w, tr ++ [Event.invoke s])

/-- The default `PanicFormat::print` body (formatter.rs lines 129-136):
acquire a writer, then run Backtrace, Prefix, PanicInfo, Suffix in that
order, discarding each call's error.  `w0` is the sink the profile's
`writer()` constructor returns. -/
def PanicFormat.print (p : PanicFormat) (info : PanicInfoRec) (w0 : SinkSt) :
    SinkSt × List Event :=
  runSeg Seg.suffix p.suffix
    (runSeg Seg.panicInfo (p.panicInfo info)
      (runSeg Seg.pre p.pre
        (runSeg Seg.backtrace p.backtrace (w0, [Event.acquire]))))

/-- The Simple profile's slot assignment (formatter.rs lines 139-150): every
slot is Simple's own policy. -/
def simplePanicFormat : PanicFormat :=
  { backtrace := Simple.backtrace_write_in
    pre := Simple.pre_write_in
    panicInfo := Simple.panic_info_write_in
    suffix := Simple.suffix_write_in }

/-- The Empty profile's slot assignment (formatter.rs lines 152-161): every
slot is Empty's no-op policy (only reachable through the default orchestrator,
which Empty's own `print` overrides). -/
def emptyPanicFormat : PanicFormat :=
  { backtrace := Empty.backtrace_write_in
    pre := Empty.pre_write_in
    panicInfo := Empty.panic_info_write_in
    suffix := Empty.suffix_write_in }

/-- Empty's overriding `print` (formatter.rs lines 163-164): the body is
empty — no sink is acquired, no policy invoked, nothing written. -/
def Empty.print (_ : PanicInfoRec) : List Event := []

/-- The JustError profile's slot assignment (formatter.rs lines 257-267):
Empty backtrace, Empty head, JustError's own PanicInfo, Simple suffix. -/
def justErrorPanicFormat : PanicFormat :=
  { backtrace := Empty.backtrace_write_in
    pre := Empty.pre_write_in
    panicInfo := JustError.panic_info_write_in
    suffix := Simple.suffix_write_in }

/-- Location text Simple's PanicInfo policy writes before the payload. -/
def simpleLocText (info : PanicInfoRec) : String :=
  match info.location with
  | some location => location.file ++ ":" ++ toString location.line ++ " - "
  | none => "unknown:0 - "

/-- A resolved symbol of one stack frame: optional name, source file and line
(the backtrace crate's Symbol). -/
structure Symbol where
  name : Option String
  filename : Option String
  lineno : Option Nat
deriving DecidableEq, Repr

/-- One captured stack frame: the instruction pointer's already-formatted text
(the width-padded hex Debug rendering of the raw pointer, environment
supplied), and the frame's resolved symbols. -/
structure Frame where
  ip : String
  symbols : List Symbol
deriving DecidableEq, Repr

/-- Number of leading handler-machinery frames Debug's backtrace skips
(formatter.rs line 192). -/
def TRASH_FRAMES_NUM : Nat := 8

/-- Width used to pad symbol continuation lines
(formatter.rs line 193, for a 64-bit usize: 8 * 2 + 2). -/
def HEX_WIDTH : Nat := 18

/-- Right-aligns text in a field of the given width by left-padding it with
spaces, as Rust's width format specifier does. -/
def padLeft (s : String) (w : Nat) : String :=
  String.mk (List.replicate (w - s.length) ' ') ++ s

/-- Text written for one symbol of a frame (formatter.rs lines 211-225):
a continuation indent for every symbol after the first, then the symbol name
(or an unknown marker), then an `at file:line` continuation when both are
available. -/
def symbolText (idx : Nat) (s : Symbol) : String :=
  (if idx != 0 then "\n      " ++ padLeft "" HEX_WIDTH else "")
  ++ (match s.name with
      | some n => " - " ++ n
      | none => " - <unknown>")
  ++ (match s.filename, s.lineno with
      | some f, some l =>
          "\n      " ++ padLeft "" HEX_WIDTH ++ "at " ++ f ++ ":" ++ toString l
      | _, _ => "")

/-- Text written for one retained frame (formatter.rs lines 202-226): a line
break, the frame index right-aligned to width 4, the instruction pointer,
an unresolved marker when the frame has no symbols, then each symbol's text. -/
def frameText (idx : Nat) (fr : Frame) : String :=
  "\n" ++ padLeft (toString idx) 4 ++ ": " ++ fr.ip
  ++ (if fr.symbols.length = 0 then " - <unresolved>" else "")
  ++ String.join (fr.symbols.enum.map fun p => symbolText p.1 p.2)

/-- Full text Debug's backtrace policy writes (formatter.rs lines 186-229,
with the backtrace-on feature): the literal "Stack backtrace:", then every
captured frame after the first TRASH_FRAMES_NUM, re-indexed from 0, then one
final line break. -/
def debugBacktraceText (frames : List Frame) : String :=
  "Stack backtrace:"
    ++ (String.join (((frames.drop TRASH_FRAMES_NUM).enum).map
          fun p => frameText p.1 p.2)
        ++ "\n")

/-- Backtrace policy of Debug (formatter.rs lines 184-229): writes the
backtrace text for the stack captured at invocation time (here passed in as
`frames`). -/
def Debug.backtrace_write_in (frames : List Frame) (w : SinkSt) :
    Except Unit SinkSt :=
  writeAll w (debugBacktraceText frames)

/-- The Debug profile's slot assignment (formatter.rs lines 232-242): Debug's
own backtrace, and Simple's head, PanicInfo and suffix policies. -/
def debugPanicFormat (frames : List Frame) : PanicFormat :=
  { backtrace := Debug.backtrace_write_in frames
    pre := Simple.pre_write_in
    panicInfo := Simple.panic_info_write_in
    suffix := Simple.suffix_write_in }

/-- One configuration for the `set_panic_message!` macro of src/src/lib.rs:
a head string, a tail string, and the ordered candidate payload types. -/
structure HookConfig where
  pre : String
  suf : String
  types : List TypeTag

/-- The line printed by the closure `set_panic_message!` installs
(src/src/lib.rs lines 77-88): head, then `file:line - ` (or nothing without
a location), then the dispatched payload text, then the tail; `println!`
appends the final line break. -/
def hookMessage (c : HookConfig) (info : PanicInfoRec) : String :=
  let msg :=
    (match info.location with
     | some location => location.file ++ ":" ++ toString location.line ++ " - "
     | none => "")
    ++ format_payload info.payload c.types
  c.pre ++ msg ++ c.suf ++ "\n"

/-- The process-wide panic hook: absent, or the installed rendering closure. -/
def HookState := Option (PanicInfoRec → String)

/-- std `panic::set_hook`: unconditionally replaces whatever hook was
installed before with the given one. -/
def set_hook (h : PanicInfoRec → String) (_ : HookState) : HookState := some h

/-- The `set_panic_message!` macro (src/src/lib.rs lines 63-90): builds the
rendering closure for the given configuration and installs it via
`panic::set_hook`. -/
def set_panic_message (c : HookConfig) (s : HookState) : HookState :=
  set_hook (hookMessage c) s

end LazyPanic

namespace LazyPanic

/-- Helper: running one segment through the orchestrator's error-discarding
wrapper always records exactly one invocation of that segment, whatever the
policy's outcome. -/
theorem runSeg_snd (s : Seg) (f : SinkSt → Except Unit SinkSt) (st : SinkSt × List Event) :
    (runSeg s f st).2 = st.2 ++ [Event.invoke s] := by
  obtain ⟨w, tr⟩ := st
  cases h : f w <;> simp [runSeg, h]

/-- Helper: the default orchestrator acquires the sink and invokes the four
policy slots exactly once each, in the fixed order Backtrace, Prefix,
PanicInfo, Suffix, for every profile, panic record and sink state. -/
theorem print_trace (p : PanicFormat) (info : PanicInfoRec) (w0 : SinkSt) :
    (p.print info w0).2
      = [Event.acquire, Event.invoke Seg.backtrace, Event.invoke Seg.pre,
         Event.invoke Seg.panicInfo, Event.invoke Seg.suffix] := by
  simp [PanicFormat.print, runSeg_snd]

/-- Helper: on an available sink, Simple's PanicInfo policy succeeds and
appends the location text followed by the dispatched payload text. -/
theorem simple_panic_info_ok (info : PanicInfoRec) (w : SinkSt) (h : w.broken = false) :
    Simple.panic_info_write_in info w
      = Except.ok { w with out := w.out ++ (simpleLocText info
          ++ format_payload info.payload [TypeTag.str, TypeTag.string]) } := by
  obtain ⟨loc, pl⟩ := info
  cases loc <;>
    simp [Simple.panic_info_write_in, write_payload, writeAll, simpleLocText, h,
      String.append_assoc]

/-- Helper: bytes the Simple profile renders on a fresh sink. -/
theorem simple_print_out (info : PanicInfoRec) :
    (simplePanicFormat.print info freshSink).1.out
      = "Panic: " ++ (simpleLocText info
          ++ (format_payload info.payload [TypeTag.str, TypeTag.string] ++ "\n")) := by
  obtain ⟨loc, pl⟩ := info
  cases loc <;>
    (simp [simplePanicFormat, PanicFormat.print, runSeg, freshSink,
      Simple.backtrace_write_in, Simple.pre_write_in, Simple.panic_info_write_in,
      Simple.suffix_write_in, write_payload, writeAll, simpleLocText,
      String.append_assoc]
     try rfl)

/-- Helper: bytes the Debug profile renders on a fresh sink, for the stack
captured as `frames`. -/
theorem debug_print_out (frames : List Frame) (info : PanicInfoRec) :
    ((debugPanicFormat frames).print info freshSink).1.out
      = debugBacktraceText frames ++ ("Panic: " ++ (simpleLocText info
          ++ (format_payload info.payload [TypeTag.str, TypeTag.string] ++ "\n"))) := by
  obtain ⟨loc, pl⟩ := info
  cases loc <;>
    (simp [debugPanicFormat, PanicFormat.print, runSeg, freshSink,
      Debug.backtrace_write_in, Simple.pre_write_in, Simple.panic_info_write_in,
      Simple.suffix_write_in, write_payload, writeAll, simpleLocText,
      String.append_assoc]
     try rfl)

/-- Helper: bytes the JustError profile renders on a fresh sink. -/
theorem just_error_print_out (info : PanicInfoRec) :
    (justErrorPanicFormat.print info freshSink).1.out
      = format_payload info.payload [TypeTag.str, TypeTag.string] ++ "\n" := by
  simp [justErrorPanicFormat, PanicFormat.print, runSeg, freshSink,
    Empty.backtrace_write_in, Empty.pre_write_in, JustError.panic_info_write_in,
    Simple.suffix_write_in, write_payload, writeAll]

/-- Helper: when the payload's dynamic type occurs among the candidates, the
dispatch renders the payload's Display text, wherever the type occurs. -/
theorem format_payload_mem (pl : Payload) (types : List TypeTag) (h : pl.ty ∈ types) :
    format_payload pl types = pl.display := by
  induction types with
  | nil => cases h
  | cons t ts ih =>
    by_cases ht : pl.ty = t
    · simp [format_payload, ht]
    · rcases List.mem_cons.mp h with h1 | h2
      · exact absurd h1 ht
      · simp [format_payload, ht, ih h2]

/-- Helper: when the payload's dynamic type is absent from the candidates,
the dispatch falls back to the Debug text of the type-erased payload. -/
theorem format_payload_not_mem (pl : Payload) (types : List TypeTag) (h : pl.ty ∉ types) :
    format_payload pl types = anyDebugText := by
  induction types with
  | nil => rfl
  | cons t ts ih =>
    have ht : pl.ty ≠ t := fun e => h (e ▸ List.mem_cons_self t ts)
    simp [format_payload, ht, ih fun m => h (List.mem_cons_of_mem _ m)]

/-- Helper: a string-typed payload dispatched against the fixed candidate
list of Simple and JustError renders as its own text. -/
theorem string_typed_payload (pl : Payload)
    (h : pl.ty = TypeTag.str ∨ pl.ty = TypeTag.string) :
    format_payload pl [TypeTag.str, TypeTag.string] = pl.display := by
  rcases h with h | h <;> simp [format_payload, h]

/-- Helper: the Debug backtrace segment always writes something (at the very
least its leading literal and the final line break). -/
theorem debugBacktraceText_ne_empty (frames : List Frame) :
    debugBacktraceText frames ≠ "" := by
  intro h
  have h2 := congrArg String.length h
  simp [debugBacktraceText, String.length_append] at h2
  exact absurd h2.1 (by decide)

/-- Claim C1, counterexample: at file "foo.rs" line 42 with the &str payload
"lolka", the Simple profile renders "Panic: foo.rs:42 - lolka\n" — the source
writes the literal "Panic: " with a trailing space — so the rendered bytes
are not the claimed "Panic:foo.rs:42 - lolka\n". -/
theorem c1_simple_render_counterexample :
    (simplePanicFormat.print ⟨some ⟨"foo.rs", 42⟩, ⟨TypeTag.str, "lolka"⟩⟩ freshSink).1.out
      ≠ "Panic:foo.rs:42 - lolka\n" := by decide

/-- Claim C1, amended: for the Simple profile, a failure at file f line l with
a string-typed payload p renders exactly "Panic: " ++ f ++ ":" ++ l ++ " - "
++ p ++ "\n" (the head literal carries a trailing space), and a failure
without location renders exactly "Panic: unknown:0 - " ++ p ++ "\n". -/
theorem c1_simple_render (f : String) (l : Nat) (pl : Payload)
    (h : pl.ty = TypeTag.str ∨ pl.ty = TypeTag.string) :
    (simplePanicFormat.print ⟨some ⟨f, l⟩, pl⟩ freshSink).1.out
        = "Panic: " ++ f ++ ":" ++ toString l ++ " - " ++ pl.display ++ "\n"
    ∧ (simplePanicFormat.print ⟨none, pl⟩ freshSink).1.out
        = "Panic: unknown:0 - " ++ pl.display ++ "\n" := by
  have hd := string_typed_payload pl h
  constructor
  · rw [simple_print_out]
    simp [simpleLocText, hd, String.append_assoc]
  · rw [simple_print_out]
    simp [simpleLocText, hd, String.append_assoc]
    rfl

/-- Witness for c1_simple_render at file "foo.rs", line 42, payload "lolka". -/
theorem c1_simple_render_witness :
    ((TypeTag.str = TypeTag.str ∨ TypeTag.str = TypeTag.string)
    ∧ (simplePanicFormat.print ⟨some ⟨"foo.rs", 42⟩, ⟨TypeTag.str, "lolka"⟩⟩ freshSink).1.out
        = "Panic: " ++ "foo.rs" ++ ":" ++ toString 42 ++ " - " ++ "lolka" ++ "\n") :=
  ⟨Or.inl rfl, (c1_simple_render "foo.rs" 42 ⟨TypeTag.str, "lolka"⟩ (Or.inl rfl)).1⟩

/-- Claim C2: for every profile, panic record and sink, the orchestrator's
default print invokes the policy slots exactly once each in the fixed order
Backtrace, Prefix, PanicInfo, Suffix; and the PanicInfo slot (which realizes
the spec's Location and Payload roles) writes the location text before the
payload text, so the rendered segment order is Backtrace, Prefix, Location,
Payload, Suffix on every invocation. -/
theorem c2_print_order (p : PanicFormat) (info : PanicInfoRec) (w0 : SinkSt) :
    ((p.print info w0).2
        = [Event.acquire, Event.invoke Seg.backtrace, Event.invoke Seg.pre,
           Event.invoke Seg.panicInfo, Event.invoke Seg.suffix])
    ∧ (∀ (info2 : PanicInfoRec) (w : SinkSt), w.broken = false →
        Simple.panic_info_write_in info2 w
          = Except.ok { w with out := w.out ++ (simpleLocText info2
              ++ format_payload info2.payload [TypeTag.str, TypeTag.string]) }) :=
  ⟨print_trace p info w0, fun info2 w h => simple_panic_info_ok info2 w h⟩

/-- Witness for c2_print_order on the Simple profile and a fresh sink. -/
theorem c2_print_order_witness :
    ((simplePanicFormat.print ⟨none, ⟨TypeTag.str, "w"⟩⟩ freshSink).2
        = [Event.acquire, Event.invoke Seg.backtrace, Event.invoke Seg.pre,
           Event.invoke Seg.panicInfo, Event.invoke Seg.suffix])
    ∧ Simple.panic_info_write_in ⟨none, ⟨TypeTag.str, "w"⟩⟩ freshSink
        = Except.ok { freshSink with out := freshSink.out
            ++ (simpleLocText ⟨none, ⟨TypeTag.str, "w"⟩⟩
                ++ format_payload ⟨TypeTag.str, "w"⟩ [TypeTag.str, TypeTag.string]) } :=
  ⟨(c2_print_order simplePanicFormat ⟨none, ⟨TypeTag.str, "w"⟩⟩ freshSink).1,
   (c2_print_order simplePanicFormat ⟨none, ⟨TypeTag.str, "w"⟩⟩ freshSink).2
     ⟨none, ⟨TypeTag.str, "w"⟩⟩ freshSink rfl⟩

/-- Claim C3: the handler never raises a new failure — the orchestrator's
print is a total function on every profile, record and sink state, every
policy slot is still invoked whatever happened before (even on an unavailable
sink), and a failing policy call leaves the write error discarded: the run
continues with the sink state unchanged by the failed call. -/
theorem c3_errors_swallowed (p : PanicFormat) (info : PanicInfoRec) (w0 : SinkSt) :
    (∀ s : Seg, Event.invoke s ∈ (p.print info w0).2)
    ∧ (∀ (s : Seg) (f : SinkSt → Except Unit SinkSt) (w : SinkSt) (tr : List Event),
        f w = Except.error () →
        runSeg s f (w, tr) = (w, tr ++ [Event.invoke s])) := by
  constructor
  · intro s
    rw [print_trace]
    cases s <;> simp
  · intro s f w tr hf
    simp [runSeg, hf]

/-- Witness for c3_errors_swallowed on a broken (unavailable) sink. -/
theorem c3_errors_swallowed_witness :
    (Event.invoke Seg.panicInfo
        ∈ (simplePanicFormat.print ⟨none, ⟨TypeTag.str, "w"⟩⟩ ⟨"", true⟩).2)
    ∧ runSeg Seg.pre Simple.pre_write_in (⟨"", true⟩, [])
        = (⟨"", true⟩, [Event.invoke Seg.pre]) :=
  ⟨(c3_errors_swallowed simplePanicFormat ⟨none, ⟨TypeTag.str, "w"⟩⟩ ⟨"", true⟩).1
      Seg.panicInfo,
   (c3_errors_swallowed simplePanicFormat ⟨none, ⟨TypeTag.str, "w"⟩⟩ ⟨"", true⟩).2
      Seg.pre Simple.pre_write_in ⟨"", true⟩ [] rfl⟩

/-- Claim C4: the Empty profile's overriding print does nothing for every
panic record: no event at all occurs, in particular the sink constructor is
never invoked (no acquire event), so zero bytes are written. -/
theorem c4_empty_print_noop (info : PanicInfoRec) :
    Empty.print info = [] ∧ Event.acquire ∉ Empty.print info :=
  ⟨rfl, by simp [Empty.print]⟩

/-- Claim C5: the JustError profile renders a string-typed payload p as
exactly p ++ "\n" — no head text, no location text, one line break — for
every location value. -/
theorem c5_just_error_render (loc : Option Location) (pl : Payload)
    (h : pl.ty = TypeTag.str ∨ pl.ty = TypeTag.string) :
    (justErrorPanicFormat.print ⟨loc, pl⟩ freshSink).1.out = pl.display ++ "\n" := by
  rw [just_error_print_out, string_typed_payload pl h]

/-- Witness for c5_just_error_render at payload "oops". -/
theorem c5_just_error_render_witness :
    ((TypeTag.str = TypeTag.str ∨ TypeTag.str = TypeTag.string)
    ∧ (justErrorPanicFormat.print ⟨some ⟨"foo.rs", 42⟩, ⟨TypeTag.str, "oops"⟩⟩
        freshSink).1.out = "oops" ++ "\n") :=
  ⟨Or.inl rfl,
   c5_just_error_render (some ⟨"foo.rs", 42⟩) ⟨TypeTag.str, "oops"⟩ (Or.inl rfl)⟩

/-- Claim C6: payload-dispatch round trip — whenever the payload's dynamic
type occurs in the ordered candidate list, the rendered text is the value's
Display text, independent of the other candidates; whenever it is absent,
the rendered text is the payload's generic Debug text. -/
theorem c6_payload_dispatch (types : List TypeTag) (pl : Payload) :
    (pl.ty ∈ types → format_payload pl types = pl.display)
    ∧ (pl.ty ∉ types → format_payload pl types = anyDebugText) :=
  ⟨format_payload_mem pl types, format_payload_not_mem pl types⟩

/-- Witness for c6_payload_dispatch: a String payload among the candidates
and a foreign payload outside them. -/
theorem c6_payload_dispatch_witness :
    format_payload ⟨TypeTag.string, "lolka"⟩ [TypeTag.str, TypeTag.string] = "lolka"
    ∧ format_payload ⟨TypeTag.other 0, "zzz"⟩ [TypeTag.str, TypeTag.string]
        = anyDebugText :=
  ⟨(c6_payload_dispatch [TypeTag.str, TypeTag.string] ⟨TypeTag.string, "lolka"⟩).1
      (by decide),
   (c6_payload_dispatch [TypeTag.str, TypeTag.string] ⟨TypeTag.other 0, "zzz"⟩).2
      (by decide)⟩

/-- Claim C7: the payload renderer is total and deterministic — for every
payload and non-empty candidate list it produces some text, and two runs on
payloads with the same dynamic type and value text against the same candidate
order produce identical text. -/
theorem c7_payload_total_deterministic (pl pl2 : Payload) (types types2 : List TypeTag)
    (h0 : types ≠ []) (h1 : pl.ty = pl2.ty) (h2 : pl.display = pl2.display)
    (h3 : types = types2) :
    (∃ s : String, format_payload pl types = s)
    ∧ format_payload pl types = format_payload pl2 types2 := by
  refine ⟨⟨format_payload pl types, rfl⟩, ?_⟩
  obtain ⟨t1, d1⟩ := pl
  obtain ⟨t2, d2⟩ := pl2
  cases h1
  cases h2
  cases h3
  rfl

/-- Witness for c7_payload_total_deterministic on a singleton candidate
list. -/
theorem c7_payload_total_deterministic_witness :
    ([TypeTag.str] ≠ ([] : List TypeTag))
    ∧ (∃ s : String, format_payload ⟨TypeTag.str, "x"⟩ [TypeTag.str] = s)
    ∧ format_payload ⟨TypeTag.str, "x"⟩ [TypeTag.str]
        = format_payload ⟨TypeTag.str, "x"⟩ [TypeTag.str] :=
  ⟨by decide,
   (c7_payload_total_deterministic ⟨TypeTag.str, "x"⟩ ⟨TypeTag.str, "x"⟩
      [TypeTag.str] [TypeTag.str] (by decide) rfl rfl rfl).1,
   (c7_payload_total_deterministic ⟨TypeTag.str, "x"⟩ ⟨TypeTag.str, "x"⟩
      [TypeTag.str] [TypeTag.str] (by decide) rfl rfl rfl).2⟩

/-- Claim C8: the Debug profile's output is a strict superset of Simple's —
for every captured stack and panic record, Debug's bytes are exactly the
backtrace segment followed by all of Simple's bytes, the backtrace segment
begins with the literal "Stack backtrace:", and it is never empty. -/
theorem c8_debug_superset (frames : List Frame) (info : PanicInfoRec) :
    ((debugPanicFormat frames).print info freshSink).1.out
        = debugBacktraceText frames
            ++ (simplePanicFormat.print info freshSink).1.out
    ∧ (∃ r : String, debugBacktraceText frames = "Stack backtrace:" ++ r)
    ∧ debugBacktraceText frames ≠ "" :=
  ⟨by rw [debug_print_out, simple_print_out],
   ⟨_, rfl⟩,
   debugBacktraceText_ne_empty frames⟩

/-- Witness for c8_debug_superset at an empty captured stack. -/
theorem c8_debug_superset_witness :
    ((debugPanicFormat []).print ⟨none, ⟨TypeTag.str, "w"⟩⟩ freshSink).1.out
        = debugBacktraceText []
            ++ (simplePanicFormat.print ⟨none, ⟨TypeTag.str, "w"⟩⟩ freshSink).1.out :=
  (c8_debug_superset [] ⟨none, ⟨TypeTag.str, "w"⟩⟩).1

/-- Claim C9: installation is last-registration-wins — installing
configuration a and then configuration b leaves exactly b's rendering
closure installed, identical to installing b alone, from any prior hook
state. -/
theorem c9_install_last_wins (a b : HookConfig) (s : HookState) :
    set_panic_message b (set_panic_message a s) = set_panic_message b s
    ∧ set_panic_message b s = some (hookMessage b) :=
  ⟨rfl, rfl⟩

/-- Claim C10: when no candidate type matches the payload's dynamic type, the
fallback text is the constant "Any" (the Debug form of the type-erased
payload reference), the same for every unmatched payload value and candidate
list. -/
theorem c10_any_fallback (pl pl2 : Payload) (types types2 : List TypeTag)
    (h : pl.ty ∉ types) :
    format_payload pl types = "Any"
    ∧ (pl2.ty ∉ types2 → format_payload pl types = format_payload pl2 types2) := by
  have h1 := format_payload_not_mem pl types h
  exact ⟨h1, fun h2 => by rw [h1, format_payload_not_mem pl2 types2 h2]⟩

/-- Witness for c10_any_fallback on two distinct unmatched payloads. -/
theorem c10_any_fallback_witness :
    format_payload ⟨TypeTag.other 5, "abc"⟩ [TypeTag.str, TypeTag.string] = "Any"
    ∧ format_payload ⟨TypeTag.other 5, "abc"⟩ [TypeTag.str, TypeTag.string]
        = format_payload ⟨TypeTag.other 7, "xyz"⟩ [TypeTag.string] :=
  ⟨(c10_any_fallback ⟨TypeTag.other 5, "abc"⟩ ⟨TypeTag.other 7, "xyz"⟩
      [TypeTag.str, TypeTag.string] [TypeTag.string] (by decide)).1,
   (c10_any_fallback ⟨TypeTag.other 5, "abc"⟩ ⟨TypeTag.other 7, "xyz"⟩
      [TypeTag.str, TypeTag.string] [TypeTag.string] (by decide)).2 (by decide)⟩

end LazyPanic
